import Mathlib

/-!
Verification development for the Weird-AI-Experiment-Ideator repository.

The definitions below are shallow embeddings of the Python source:
* `convert_to_pdf.py`  — the best-effort markdown-to-ideas extractor and the
  markdown-to-PDF conversion command;
* `src/crew.py`        — the six-stage ideation pipeline declaration and the
  `IdeationResult` container with its `to_dict` serializer;
* `main.py`            — the pipeline entry point (API-key check, JSON output);
* `src/pdf_generator.py` — the score table and the idea ordering used when
  rendering the PDF.

Strings are modelled as `List Char` internally (Lean `String` is a wrapper
around `List Char`), machine text positions as list positions.  Python
`re` semantics for the one regex the extractor uses are implemented directly
as a backtracking-faithful scanner specialised to that pattern.
-/

namespace Ideator

/-- Characters treated as whitespace by Python `str.strip()` and by `\s` in a
`str`-pattern regex (ASCII whitespace plus the Unicode space code points). -/
def isPySpace (c : Char) : Bool :=
  c.toNat = 9 ∨ c.toNat = 10 ∨ c.toNat = 11 ∨ c.toNat = 12 ∨ c.toNat = 13 ∨
  c.toNat = 28 ∨ c.toNat = 29 ∨ c.toNat = 30 ∨ c.toNat = 31 ∨ c.toNat = 32 ∨
  c.toNat = 133 ∨ c.toNat = 160 ∨ c.toNat = 5760 ∨
  (8192 ≤ c.toNat ∧ c.toNat ≤ 8202) ∨
  c.toNat = 8232 ∨ c.toNat = 8233 ∨ c.toNat = 8239 ∨ c.toNat = 8287 ∨
  c.toNat = 12288

/-- ASCII decimal digit, as matched by `\d` on the inputs modelled here
(non-ASCII Unicode decimal digits are not modelled). -/
def isDigitChar (c : Char) : Bool := '0' ≤ c ∧ c ≤ '9'

/-- Python `str.strip()` with no argument: drop whitespace at both ends. -/
def pyStrip (l : List Char) : List Char :=
  ((l.dropWhile isPySpace).reverse.dropWhile isPySpace).reverse

/-- Python `str.strip("*#")`: drop `*` and `#` at both ends. -/
def stripStarHash (l : List Char) : List Char :=
  let p : Char → Bool := fun c => c = '*' ∨ c = '#'
  ((l.dropWhile p).reverse.dropWhile p).reverse

/-- Python `str.lower()` restricted to ASCII letters (the keyword table the
parser compares against is all-ASCII). -/
def pyLowerChar (c : Char) : Char :=
  if 'A' ≤ c ∧ c ≤ 'Z' then Char.ofNat (c.toNat + 32) else c

/-- Lower-case an entire string (character list). -/
def pyLower (l : List Char) : List Char := l.map pyLowerChar

/-- Python `str.split("\n")`: split at every newline, keeping empty pieces;
the result is always non-empty. -/
def splitNL : List Char → List (List Char)
  | [] => [[]]
  | c :: t =>
    if c = '\n' then [] :: splitNL t
    else
      match splitNL t with
      | [] => [[c]]
      | h :: r => (c :: h) :: r

/-- Python `"\n".join(pieces)`. -/
def joinNL (ls : List (List Char)) : List Char :=
  (ls.intersperse ['\n']).flatten

/-- Does `l` start with `kw`? -/
def listStartsWith : List Char → List Char → Bool
  | _, [] => true
  | [], _ :: _ => false
  | c :: t, k :: kt => c = k && listStartsWith t kt

/-- Python `kw in l` on strings: substring containment. -/
def containsSub (kw : List Char) : List Char → Bool
  | [] => kw.isEmpty
  | c :: t => listStartsWith (c :: t) kw || containsSub kw t

/-!
### The numbered-idea regex of `parse_markdown_to_ideas`

`convert_to_pdf.py` line 22 compiles (with `re.DOTALL`)

  `(?:^|\n)(?:#{1,3}\s*)?(\d+)[:\.\)]\s*(.+?)(?=\n(?:#{1,3}\s*)?\d+[:\.\)]|\Z)`

and iterates it with `re.finditer`.  The scanner below implements exactly this
pattern's backtracking behaviour: the optional hash group is taken greedily,
`\d+` and `\s*` munch maximally (the following character classes are disjoint,
so maximal munch agrees with backtracking), and the lazy `(.+?)` stops at the
first position where the lookahead (next idea marker, or end of input)
succeeds.  When the tail after the separator is all whitespace, greedy `\s*`
backtracks one character so that `(.+?)` can still match.
-/

/-- One of the ordinal delimiters `[:\.\)]`. -/
def isDelim (c : Char) : Bool := c = ':' ∨ c = '.' ∨ c = ')'

/-- Test whether `\d+[:\.\)]` matches at the head of `l`. -/
def digitDelim (l : List Char) : Bool :=
  let d := l.takeWhile isDigitChar
  ¬d.isEmpty &&
    match l.drop d.length with
    | [] => false
    | c :: _ => isDelim c

/-- Test whether `(?:#{1,3}\s*)?\d+[:\.\)]` matches at the head of `l` (used inside the
lookahead).  A run of more than three hashes can never be completed because
`\s*` cannot consume a hash. -/
def markerOk (l : List Char) : Bool :=
  let h := (l.takeWhile (fun c => c = '#')).length
  if h = 0 then digitDelim l
  else if h ≤ 3 then digitDelim ((l.drop h).dropWhile isPySpace)
  else false

/-- The lookahead `(?=\n(?:#{1,3}\s*)?\d+[:\.\)]|\Z)` at the position whose
remaining input is `l`. -/
def lookaheadOk : List Char → Bool
  | [] => true
  | c :: t => c = '\n' && markerOk t

/-- The lazy content group `(.+?)` followed by the lookahead: consume at least
one character, then stop at the first position where the lookahead succeeds.
Returns (content, rest).  At the end of input the lookahead (`\Z`) always
succeeds, so the recursion covers the whole list in the worst case. -/
def scanContent : List Char → List Char × List Char
  | [] => ([], [])
  | x :: xs =>
    if lookaheadOk xs then ([x], xs)
    else
      let r := scanContent xs
      (x :: r.1, r.2)

/-- The body of the idea pattern after the `(?:^|\n)` anchor: optional hash
prefix, the two capture groups and the trailing lookahead.  Returns
`(group 1 digits, group 2 content, rest of input after the match)`. -/
def matchCore (l : List Char) : Option (List Char × List Char × List Char) :=
  let h := (l.takeWhile (fun c => c = '#')).length
  if h ≤ 3 then
    let l1 := if h = 0 then l else (l.drop h).dropWhile isPySpace
    let d := l1.takeWhile isDigitChar
    if d.isEmpty then none
    else
      match l1.drop d.length with
      | [] => none
      | c :: l3 =>
        if isDelim c then
          let w := l3.takeWhile isPySpace
          match l3.drop w.length with
          | [] =>
            -- the rest is all whitespace: greedy `\s*` gives one char back so
            -- that the lazy `(.+?)` can match it, and `\Z` closes the match
            match w.reverse with
            | [] => none
            | wc :: _ => some (d, [wc], [])
          | x :: xs =>
            let r := scanContent (x :: xs)
            some (d, r.1, r.2)
        else none
  else none

/-- The full pattern including the `(?:^|\n)` anchor: at the very start of the
input the empty `^` branch is tried first, then the `\n` branch; elsewhere a
match must begin at a newline. -/
def anchoredMatch (atStart : Bool) (l : List Char) :
    Option (List Char × List Char × List Char) :=
  if atStart then
    match matchCore l with
    | some r => some r
    | none =>
      match l with
      | '\n' :: t => matchCore t
      | _ => none
  else
    match l with
    | '\n' :: t => matchCore t
    | _ => none

/-- Iteration of the idea pattern as `re.finditer` performs it: scan left to right, emitting
non-overlapping matches and resuming after each match end.  Each step either
consumes the whole of a (never-empty) match or advances one character, so
`length + 1` units of fuel always suffice. -/
def findAux : Nat → List Char → Bool → List (List Char × List Char)
  | 0, _, _ => []
  | fuel + 1, l, atStart =>
    match anchoredMatch atStart l with
    | some (g1, g2, rest) => (g1, g2) :: findAux fuel rest false
    | none =>
      match l with
      | [] => []
      | _ :: t => findAux fuel t false

/-- All matches of the numbered-idea pattern in `s`, as
`(group 1, group 2)` pairs. -/
def findMatches (s : String) : List (List Char × List Char) :=
  findAux (s.data.length + 1) s.data true

/-!
### Section extraction (`parse_markdown_to_ideas`, lines 30–111)

For each match the first line becomes the title; the remaining lines are
scanned against the keyword table `section_map`, accumulating content lines
into the currently open section.  A line whose lowered, stripped form contains
any keyword of some section opens that section (first section in declaration
order wins) and saves the previous one.  The in-loop save joins the collected
lines without stripping; the final save after the loop strips the joined text
(`convert_to_pdf.py` lines 63 vs 84).
-/

/-- The five section slots of `section_map`. -/
inductive SKey | desc | impl | feas | impact | pitch
deriving DecidableEq

/-- The keyword table `section_map`, in Python dict insertion order. -/
def sectionKeywords : SKey → List (List Char)
  | .desc => ["description".data, "what is it".data, "overview".data]
  | .impl => ["implementation".data, "how to build".data, "technical".data]
  | .feas => ["feasibility".data, "difficulty".data, "resources".data]
  | .impact => ["impact".data, "potential".data, "value".data, "outcome".data]
  | .pitch => ["pitch".data, "summary".data, "tldr".data]

/-- First section (in `section_map` order) one of whose keywords occurs in the
lowered, stripped line; `none` if the line is not a section header. -/
def findSectionKey (lineLower : List Char) : Option SKey :=
  if (sectionKeywords .desc).any (fun k => containsSub k lineLower) then some .desc
  else if (sectionKeywords .impl).any (fun k => containsSub k lineLower) then some .impl
  else if (sectionKeywords .feas).any (fun k => containsSub k lineLower) then some .feas
  else if (sectionKeywords .impact).any (fun k => containsSub k lineLower) then some .impact
  else if (sectionKeywords .pitch).any (fun k => containsSub k lineLower) then some .pitch
  else none

/-- The five accumulated section texts. -/
structure Secs where
  description : List Char := []
  implementation : List Char := []
  feasibility : List Char := []
  potential_impact : List Char := []
  elevator_pitch : List Char := []
deriving DecidableEq

/-- Store `v` into the slot named by `k`. -/
def saveSec (s : Secs) (k : SKey) (v : List Char) : Secs :=
  match k with
  | .desc => { s with description := v }
  | .impl => { s with implementation := v }
  | .feas => { s with feasibility := v }
  | .impact => { s with potential_impact := v }
  | .pitch => { s with elevator_pitch := v }

/-- The `for line in lines[1:]` loop of `parse_markdown_to_ideas`: state is
(current section, collected lines, sections so far). -/
def scanLoop : List (List Char) → Option SKey → List (List Char) → Secs →
    Option SKey × List (List Char) × Secs
  | [], cur, content, secs => (cur, content, secs)
  | line :: rest, cur, content, secs =>
    let ll := pyStrip (pyLower line)
    match findSectionKey ll with
    | some k =>
      let secs' :=
        match cur with
        | some c => if content.isEmpty then secs else saveSec secs c (joinNL content)
        | none => secs
      scanLoop rest (some k) [] secs'
    | none =>
      match cur with
      | some _ => scanLoop rest cur (content ++ [line]) secs
      | none => scanLoop rest cur content secs

/-- Run the section loop over the given lines and perform the final save
(which, unlike the in-loop save, strips the joined content). -/
def scanSections (ls : List (List Char)) : Secs :=
  match scanLoop ls none [] {} with
  | (cur, content, secs) =>
    match cur with
    | some c => if content.isEmpty then secs else saveSec secs c (pyStrip (joinNL content))
    | none => secs

/-- The sections extracted for one regex match whose content group is `g2`:
the match content is stripped, split at newlines; the first line is the title
and the remaining lines feed the section loop. -/
def sectionsOf (g2 : List Char) : Secs :=
  scanSections ((splitNL (pyStrip g2)).drop 1)

/-- One extracted idea record (the dict built at
`convert_to_pdf.py` lines 101–109). -/
structure Idea where
  id : Nat
  title : String
  elevator_pitch : String
  description : String
  implementation : String
  feasibility : String
  potential_impact : String
deriving DecidableEq

/-- Python `int` of a non-empty digit string. -/
def natOfDigits (l : List Char) : Nat :=
  l.foldl (fun a c => 10 * a + (c.toNat - 48)) 0

/-- Computation of `re.split(r"[.!?]", description)[0]`: text before the first sentence
delimiter, then the `[:200]` truncation of line 99. -/
def firstSentenceTrunc (d : List Char) : List Char :=
  let fs := d.takeWhile (fun c => ¬(c = '.' ∨ c = '!' ∨ c = '?'))
  if fs.length > 200 then fs.take 200 else fs

/-- Build the idea dict for one regex match `(g1, g2)`
(`convert_to_pdf.py` lines 26–111): title from the first line, sections from
the keyword scan, the elevator-pitch fallback to the first sentence of the
description, and the `or` fallbacks for empty pitch / empty description. -/
def buildIdea (g1 g2 : List Char) : Idea :=
  let ideaContent := pyStrip g2
  let lines := splitNL ideaContent
  let title := pyStrip (stripStarHash (pyStrip (lines.headD [])))
  let secs := sectionsOf g2
  let pitch1 :=
    if secs.elevator_pitch.isEmpty ∧ ¬secs.description.isEmpty then
      firstSentenceTrunc secs.description
    else secs.elevator_pitch
  { id := natOfDigits g1
    title := ⟨title⟩
    elevator_pitch :=
      if pitch1.isEmpty then ⟨"AI experiment idea: ".data ++ title⟩ else ⟨pitch1⟩
    description :=
      if secs.description.isEmpty then ⟨ideaContent⟩ else ⟨secs.description⟩
    implementation := ⟨secs.implementation⟩
    feasibility := ⟨secs.feasibility⟩
    potential_impact := ⟨secs.potential_impact⟩ }

/-- The extractor `parse_markdown_to_ideas`: one idea per regex match. -/
def parse_markdown_to_ideas (markdown_content : String) : List Idea :=
  (findMatches markdown_content).map fun m => buildIdea m.1 m.2

/-- The synthetic fallback idea of `convert_markdown_to_pdf`
(lines 130–137): description is the first 5000 characters of the raw text. -/
def fallbackIdea (markdown_content : String) : Idea :=
  { id := 1
    title := "Ideation Report"
    elevator_pitch := "Full ideation session output"
    description := ⟨markdown_content.data.take 5000⟩
    implementation := ""
    feasibility := ""
    potential_impact := "" }

/-- The idea list `convert_markdown_to_pdf` hands to the PDF renderer
(lines 126–137): the parsed ideas, or the single synthetic idea when the
parser found nothing.  (File reading and PDF building are I/O and are outside
this model.) -/
def convert_markdown_to_pdf (markdown_content : String) : List Idea :=
  let ideas := parse_markdown_to_ideas markdown_content
  if ideas.isEmpty then [fallbackIdea markdown_content] else ideas

/-!
### The conversion command (`convert_to_pdf.py`, `main`, lines 148–200)

Only exit behaviour and printed diagnostics are modelled; the filesystem is an
abstract record.  In the single-file mode every exception (including the
`FileNotFoundError` raised for a missing input) is caught and printed; in the
batch mode the not-a-directory and no-markdown-files branches `return` from
`main`.  In every case the Python process then terminates normally, i.e. with
exit code 0.
-/

/-- The parsed CLI arguments of the conversion command. -/
structure ConvArgs where
  input : String
  output : Option String
  batch : Bool

/-- The filesystem facts the conversion command consults. -/
structure ConvFS where
  isDir : String → Bool
  fileExists : String → Bool
  mdFiles : String → List String

/-- Embedding of `main` of `convert_to_pdf.py`: returns (process exit code, printed lines).
Per-file conversion work is not modelled beyond its messages. -/
def convertCliMain (args : ConvArgs) (fs : ConvFS) : Nat × List String :=
  if args.batch then
    if fs.isDir args.input = false then
      (0, ["Error: " ++ args.input ++ " is not a directory"])
    else if (fs.mdFiles args.input).isEmpty then
      (0, ["No markdown files found in " ++ args.input])
    else
      (0, ["Converting " ++ toString (fs.mdFiles args.input).length ++
           " markdown files to PDF..."])
  else
    if fs.fileExists args.input = false then
      (0, ["Converting " ++ args.input ++ " to PDF...",
           "Error: Markdown file not found: " ++ args.input])
    else
      (0, ["Converting " ++ args.input ++ " to PDF...", "PDF created"])

/-!
### The ideation pipeline (`src/crew.py`)

`create_ideation_crew` declares six tasks and, for each, the list of earlier
tasks whose outputs are supplied as context; the crew executes them with
`Process.sequential` (tasks run one after another in list order, each task
receiving the recorded outputs of its declared context tasks).  The stage
graph is embedded as data and the sequential process as a fold.
-/

/-- One declared task: its stage name and the names of the stages whose
outputs it receives as context. -/
structure TaskDecl where
  name : String
  context : List String

/-- The six tasks exactly as wired in `create_ideation_crew`
(`src/crew.py` lines 59–69 and the `tasks` list at line 84). -/
def ideationTasks : List TaskDecl :=
  [ ⟨"generation", []⟩,
    ⟨"amplification_1", ["generation"]⟩,
    ⟨"amplification_2", ["amplification_1"]⟩,
    ⟨"evaluation", ["generation", "amplification_1", "amplification_2"]⟩,
    ⟨"categorization", ["generation", "amplification_1", "amplification_2"]⟩,
    ⟨"synthesis", ["generation", "amplification_1", "amplification_2",
                   "evaluation", "categorization"]⟩ ]

/-- The declared stage names, in execution order. -/
def stageNames : List String := ideationTasks.map TaskDecl.name

/-- A recorded stage execution: the stage name, the context texts it was
supplied, and its raw output text. -/
structure StageOutput where
  name : String
  context : List String
  output : String

/-- Sequential crew execution (`Process.sequential`): run the declared tasks
in list order; each task's context is the recorded raw outputs of its
declared context stages.  `exec` is the external text-generation call. -/
def runSequential (exec : String → List String → String) : List StageOutput :=
  ideationTasks.foldl
    (fun acc t =>
      let ctx := t.context.map fun c =>
        (((acc.find? fun so => so.name = c).map StageOutput.output).getD "")
      acc ++ [⟨t.name, ctx, exec t.name ctx⟩])
    []

/-- The raw output recorded for stage `c` in the run `r` (empty if absent). -/
def outputIn (r : List StageOutput) (c : String) : String :=
  (((r.find? fun so => so.name = c).map StageOutput.output).getD "")

/-- The declared context-stage list of the stage named `n`. -/
def declaredContext (n : String) : List String :=
  (((ideationTasks.find? fun t => t.name = n).map TaskDecl.context).getD [])

/-!
### `IdeationResult` and the JSON document (`src/crew.py` lines 23–44,
`main.py` lines 108–118)
-/

/-- A Python value, as far as the serializer distinguishes them: the
`final_result` field is typed `Any` in the dataclass and is stringified by
`to_dict`; a string and a non-string with the same rendering are distinct
values with identical serializations. -/
inductive PyVal
  | pstr (s : String)
  | pint (n : Int)
deriving DecidableEq

/-- Python `str()` on the modelled values. -/
def pyStr : PyVal → String
  | .pstr s => s
  | .pint n => toString n

/-- The `IdeationResult` dataclass. -/
structure IdeationResult where
  generation_output : String
  amplification_1_output : String
  amplification_2_output : String
  evaluation_output : String
  categorization_output : String
  synthesis_output : String
  final_result : PyVal
deriving DecidableEq

/-- A JSON value of the document `main.py` writes: a string, or a one-level
string-to-string mapping (the document is exactly two levels deep). -/
inductive JEntry
  | jstr (s : String)
  | jmap (m : List (String × String))
deriving DecidableEq

/-- Serializer `IdeationResult.to_dict` (`src/crew.py` lines 34–44): six raw stage texts
plus the stringified `final_result`. -/
def IdeationResult.to_dict (r : IdeationResult) : List (String × String) :=
  [ ("generation_output", r.generation_output),
    ("amplification_1_output", r.amplification_1_output),
    ("amplification_2_output", r.amplification_2_output),
    ("evaluation_output", r.evaluation_output),
    ("categorization_output", r.categorization_output),
    ("synthesis_output", r.synthesis_output),
    ("final_result", pyStr r.final_result) ]

/-- The `json_data` mapping written to disk by `main.py` lines 111–115. -/
def jsonData (r : IdeationResult) (timestamp generated_at : String) :
    List (String × JEntry) :=
  [ ("timestamp", .jstr timestamp),
    ("generated_at", .jstr generated_at),
    ("outputs", .jmap r.to_dict) ]

/-- All string values occurring anywhere in the document (both levels). -/
def docStrings (d : List (String × JEntry)) : List String :=
  d.flatMap fun e =>
    match e.2 with
    | .jstr s => [s]
    | .jmap m => m.map Prod.snd

/-- All keys occurring anywhere in the document (both levels). -/
def docKeys (d : List (String × JEntry)) : List String :=
  d.flatMap fun e =>
    e.1 :: (match e.2 with | .jstr _ => [] | .jmap m => m.map Prod.fst)

/-- First value bound to `k` in an association list. -/
def alist.get? {β : Type} (d : List (String × β)) (k : String) : Option β :=
  ((d.find? fun e => e.1 = k).map Prod.snd)

/-- Modelled from the spec: the repository has no deserializer for the JSON
document, but the spec requires the document to "round-trip through
serialize/deserialize without loss".  This parser reads the document written
by `main.py` back into an `IdeationResult`, taking each stage text from the
`outputs` mapping and `final_result` as the stored string. -/
def specParse (d : List (String × JEntry)) : Option IdeationResult :=
  match alist.get? d "outputs" with
  | some (.jmap m) =>
    match alist.get? m "generation_output", alist.get? m "amplification_1_output",
          alist.get? m "amplification_2_output", alist.get? m "evaluation_output",
          alist.get? m "categorization_output", alist.get? m "synthesis_output",
          alist.get? m "final_result" with
    | some g, some a1, some a2, some ev, some ca, some sy, some fr =>
      some ⟨g, a1, a2, ev, ca, sy, .pstr fr⟩
    | _, _, _, _, _, _, _ => none
  | _ => none

/-!
### The pipeline entry point (`main.py`, `main`, lines 40–156)

Only the credential check and whether the external ideation session is
invoked are modelled.  `os.getenv` yields `none` when the variable is unset;
Python's `not os.getenv(...)` is also true for the empty string.
-/

/-- Truthiness of `os.getenv` under `not`: a value is "present" when it is a
non-empty string. -/
def envTruthy : Option String → Bool
  | none => false
  | some s => ¬(s = "")

/-- Embedding of `main` of `main.py`: returns (exit code, whether `run_ideation_session`
— the external generation calls — was invoked).  `sessionOk` abstracts
whether the session succeeds once started. -/
def pipelineMain (env : String → Option String) (sessionOk : Bool) :
    Nat × Bool :=
  if envTruthy (env "OPENROUTER_API_KEY") = false then (1, false)
  else if sessionOk then (0, true) else (1, true)

/-!
### The score table and idea ordering (`src/pdf_generator.py`)
-/

/-- A numeric score value as stored in an evaluation dictionary: a Python
`int` or `float` (floats modelled as rationals).  Non-numeric members of the
evaluation dictionaries (e.g. `justification` strings) are not modelled: no
claim touches them, and a non-numeric `overall_score` would make Python's
sort raise. -/
inductive PyNum
  | pint (n : Int)
  | pfloat (q : ℚ)
deriving DecidableEq

/-- The rational magnitude of a numeric value. -/
def PyNum.toQ : PyNum → ℚ
  | .pint n => n
  | .pfloat q => q

/-- Python `str()` of a score value as interpolated by the f-strings of
`_add_scores_table` (floats shown to the precision the claims exercise). -/
def pyNumStr : PyNum → String
  | .pint n => toString n
  | .pfloat q =>
    if q.den = 1 then toString q.num ++ ".0"
    else toString q.num ++ "/" ++ toString q.den

/-- Computation of `10 * x` rounded to an integer, half to even — the
rounding Python's fixed-point formatting performs at a tie.  Working on the
numerator and denominator directly: `f` is the floor of `10 * x` and
`rnum / d` its fractional part. -/
def roundTenthsHalfEven (x : ℚ) : Int :=
  let n := x.num * 10
  let d : Int := x.den
  let f := n.ediv d
  let rnum := n - f * d
  if 2 * rnum < d then f
  else if d < 2 * rnum then f + 1
  else if f % 2 = 0 then f else f + 1

/-- Python `f"{v:.1f}"`: the value rounded to one decimal place. -/
def formatFixed1 (q : ℚ) : String :=
  let m := roundTenthsHalfEven q
  let sign := if m < 0 then "-" else ""
  let a := m.natAbs
  sign ++ toString (a / 10) ++ "." ++ toString (a % 10)

/-- The five rows of the score table built by
`IdeaPDFGenerator._add_scores_table` (lines 216–246): the four criterion rows
interpolate `scores.get(key, 'N/A')` into `".../10"`; the Overall row formats
`overall_score` with `:.1f` when it is numeric and shows `"N/A"` otherwise
(in particular when the key is absent). -/
def scoresTableRows (scores : List (String × PyNum)) : List (List String) :=
  let cell := fun k =>
    match alist.get? scores k with
    | some v => pyNumStr v ++ "/10"
    | none => "N/A" ++ "/10"
  [ ["Creativity", cell "creativity_score"],
    ["Feasibility", cell "feasibility_score"],
    ["Uniqueness", cell "uniqueness_score"],
    ["Impact", cell "impact_score"],
    ["Overall",
      match alist.get? scores "overall_score" with
      | some v => formatFixed1 v.toQ ++ "/10"
      | none => "N/A"] ]

/-- An idea dictionary as seen by `generate_ideas_pdf`: only the members the
ordering logic reads are modelled (`"id" in idea`, `idea["id"]`, and the
optional `"scores"` mapping). -/
structure PIdea where
  id : Option Int
  scores : Option (List (String × PyNum))
  title : String
deriving DecidableEq

/-- The evaluation map `{e.get("idea_id"): e for e in evaluations if
"idea_id" in e}`: dict comprehension, so a later entry with the same id wins.
Evaluation dictionaries are association lists with an integer `idea_id`. -/
def lookupEval (evals : List (List (String × PyNum))) (i : Int) :
    Option (List (String × PyNum)) :=
  (evals.filter fun e => alist.get? e "idea_id" = some (.pint i)).getLast?

/-- The sort key `x.get("scores", {}).get("overall_score", 0)` of
`generate_ideas_pdf` line 299. -/
def overallKey (p : PIdea) : ℚ :=
  match p.scores with
  | none => 0
  | some d =>
    match alist.get? d "overall_score" with
    | some v => v.toQ
    | none => 0

/-- Stable descending insertion: `x` is placed before the first element whose
key does not exceed `x`'s, so elements with equal keys keep their original
relative order (as Python's stable `sorted(..., reverse=True)` does). -/
def insertByKeyDesc (x : PIdea) : List PIdea → List PIdea
  | [] => [x]
  | y :: ys =>
    if overallKey y ≤ overallKey x then x :: y :: ys
    else y :: insertByKeyDesc x ys

/-- Stable sort by descending overall score. -/
def sortByKeyDesc (l : List PIdea) : List PIdea :=
  l.foldr insertByKeyDesc []

/-- The idea ordering of `generate_ideas_pdf` (lines 288–312): merge supplied
evaluations into the ideas by id, sort by descending overall score when
evaluations are present (and `top_ideas_only` is off), then optionally keep
the top `num_top_ideas`.  The returned list order is the order in which
`add_idea` renders the ideas into the document. -/
def generate_ideas_pdf_order (ideas : List PIdea)
    (evaluations : List (List (String × PyNum)))
    (top_ideas_only : Bool) (num_top_ideas : Nat) : List PIdea :=
  let merged :=
    if evaluations.isEmpty then ideas
    else ideas.map fun p =>
      match p.id with
      | some v =>
        match lookupEval evaluations v with
        | some e => { p with scores := some e }
        | none => p
      | none => p
  let sorted :=
    if ¬evaluations.isEmpty ∧ top_ideas_only = false then sortByKeyDesc merged
    else merged
  if top_ideas_only then sorted.take num_top_ideas else sorted

/-!
### Concrete sample values used by the closed theorems below
-/

/-- The default model identifier of `src/config.py` line 13. -/
def DEFAULT_MODEL : String := "openrouter/google/gemini-2.5-flash-lite"

/-- A fully populated sample run result. -/
def sampleResult : IdeationResult :=
  ⟨"gen text", "amp1 text", "amp2 text", "eval text", "cat text", "synth text",
   .pint 7⟩

/-- A run result whose `final_result` is the integer `1`. -/
def resultIntFinal : IdeationResult := ⟨"g", "a", "b", "e", "c", "s", .pint 1⟩

/-- A run result whose `final_result` is the string `"1"`. -/
def resultStrFinal : IdeationResult := ⟨"g", "a", "b", "e", "c", "s", .pstr "1"⟩

/-- The rational 7.5, written with explicit numerator and denominator so that
the kernel can evaluate it without rational-number normalization. -/
def sevenPointFive : ℚ := ⟨15, 2, by decide, by norm_num⟩

/-- The rational 9.9, written with explicit numerator and denominator. -/
def ninePointNine : ℚ := ⟨99, 10, by decide, by norm_num⟩

/-- The four criterion scores of the score-table claim, without any
`overall_score` member. -/
def fourScores : List (String × PyNum) :=
  [ ("creativity_score", .pint 8), ("feasibility_score", .pint 6),
    ("uniqueness_score", .pint 9), ("impact_score", .pint 7) ]

/-- Two ideas: idea 1 already carries its own scores mapping with overall
score 5; idea 2 carries none. -/
def twoIdeas : List PIdea :=
  [ ⟨some 1, some [("overall_score", .pint 5)], "A"⟩,
    ⟨some 2, none, "B"⟩ ]

/-- A single evaluation, matching idea 2 with overall score 3. -/
def oneEval : List (List (String × PyNum)) :=
  [ [("idea_id", .pint 2), ("overall_score", .pint 3)] ]

/-- Two ideas with no scores of their own, used by the witness of the
amended ordering claim. -/
def plainIdeas : List PIdea := [⟨some 1, none, "A"⟩, ⟨some 2, none, "B"⟩]

/-- An evaluation matching only idea 1, with overall score 4. -/
def evalForOne : List (List (String × PyNum)) :=
  [ [("idea_id", .pint 1), ("overall_score", .pint 4)] ]

/-- Claim C1: if the numbered-idea pattern finds zero matches in the input,
the conversion proceeds with exactly one synthetic idea whose description is
the first 5000 characters of the raw text, so the renderer never receives an
empty idea list. -/
theorem claim1_zero_matches_fallback (md : String)
    (h : findMatches md = []) :
    convert_markdown_to_pdf md = [fallbackIdea md] ∧
    (fallbackIdea md).description = String.mk (md.data.take 5000) ∧
    convert_markdown_to_pdf md ≠ [] := by
  simp [convert_markdown_to_pdf, parse_markdown_to_ideas, h, fallbackIdea]

/-- Witness for C1: the input `"hello world"` has zero pattern matches, and
conversion yields exactly the synthetic idea. -/
theorem claim1_witness :
    findMatches "hello world" = [] ∧
    convert_markdown_to_pdf "hello world" = [fallbackIdea "hello world"] :=
  ⟨by decide, (claim1_zero_matches_fallback "hello world" (by decide)).1⟩

/-- Counterexample for C2: on the input
`"1. Foo\nDescription: bar baz\n2. Quux\nDescription: zap"` the extractor
does return two ideas titled `"Foo"` and `"Quux"`, but the line
`"Description: bar baz"` is itself recognised as the description section
header, so its tail is discarded and the description falls back to the whole
matched content — not `"bar baz"` / `"zap"` as claimed. -/
theorem claim2_counterexample :
    (parse_markdown_to_ideas
        "1. Foo\nDescription: bar baz\n2. Quux\nDescription: zap").map
        (fun i => (i.title, i.description)) =
      [("Foo", "Foo\nDescription: bar baz"), ("Quux", "Quux\nDescription: zap")] ∧
    ¬ (parse_markdown_to_ideas
        "1. Foo\nDescription: bar baz\n2. Quux\nDescription: zap").map
        (fun i => (i.title, i.description)) =
      [("Foo", "bar baz"), ("Quux", "zap")] := by
  decide

/-- Amended C2: on that input the extractor returns exactly two ideas titled
`"Foo"` and `"Quux"`, whose descriptions are the full matched contents
(`"Foo\nDescription: bar baz"` and `"Quux\nDescription: zap"`), and whose
pitches fall back to `"AI experiment idea: <title>"`. -/
theorem claim2_amended :
    parse_markdown_to_ideas
        "1. Foo\nDescription: bar baz\n2. Quux\nDescription: zap" =
      [ ⟨1, "Foo", "AI experiment idea: Foo", "Foo\nDescription: bar baz",
         "", "", ""⟩,
        ⟨2, "Quux", "AI experiment idea: Quux", "Quux\nDescription: zap",
         "", "", ""⟩ ] := by
  decide

/-- Counterexample for C3: for the idea parsed from
`"3. T\nDescription\n.x after"` no pitch section is recognised and the
description `".x after"` is non-empty, yet the extracted pitch is the
`"AI experiment idea: T"` fallback, not the (empty) first sentence of the
description: when the first sentence is empty the pitch assignment is undone
by the `or` fallback on line 104. -/
theorem claim3_counterexample :
    findMatches "3. T\nDescription\n.x after" =
      [("3".data, "T\nDescription\n.x after".data)] ∧
    (sectionsOf "T\nDescription\n.x after".data).elevator_pitch = [] ∧
    (sectionsOf "T\nDescription\n.x after".data).description = ".x after".data ∧
    (parse_markdown_to_ideas "3. T\nDescription\n.x after").map
        Idea.elevator_pitch = ["AI experiment idea: T"] ∧
    ¬ "AI experiment idea: T" =
        String.mk (firstSentenceTrunc ".x after".data) := by
  decide

/-- Amended C3: for every extracted idea where no pitch section was
recognised, the description is non-empty, and the first sentence of the
description is itself non-empty, the extracted pitch is that first sentence
(text before the first '.', '!' or '?', truncated to 200 characters). -/
theorem claim3_amended (g1 g2 : List Char)
    (h1 : (sectionsOf g2).elevator_pitch = [])
    (h2 : ¬(sectionsOf g2).description = [])
    (h3 : ¬ firstSentenceTrunc (sectionsOf g2).description = []) :
    (buildIdea g1 g2).elevator_pitch =
      String.mk (firstSentenceTrunc (sectionsOf g2).description) := by
  unfold buildIdea
  simp [h1, h2, h3, List.isEmpty_iff]

/-- Witness for C3: the idea parsed from content with description
`"This is great. It works."` and no pitch section gets the pitch
`"This is great"`. -/
theorem claim3_witness :
    (buildIdea "3".data "T\nDescription\nThis is great. It works.".data).elevator_pitch
      = "This is great" := by
  rw [claim3_amended "3".data "T\nDescription\nThis is great. It works.".data
        (by decide) (by decide) (by decide)]
  decide

/-- Claim C4: the six stages are declared in the fixed order and executed in
that order by the sequential process; every declared context stage runs
strictly before its consumer; each recorded context is exactly the raw
outputs of the declared context-stage list; and the topology is exactly:
amplification 1 sees only generation, amplification 2 only amplification 1,
evaluation and categorization see generation plus both amplifications, and
synthesis sees all five prior stages. -/
theorem claim4_pipeline_order_and_context
    (exec : String → List String → String) :
    (runSequential exec).map StageOutput.name =
      ["generation", "amplification_1", "amplification_2", "evaluation",
       "categorization", "synthesis"] ∧
    declaredContext "amplification_1" = ["generation"] ∧
    declaredContext "amplification_2" = ["amplification_1"] ∧
    declaredContext "evaluation" =
      ["generation", "amplification_1", "amplification_2"] ∧
    declaredContext "categorization" =
      ["generation", "amplification_1", "amplification_2"] ∧
    declaredContext "synthesis" =
      ["generation", "amplification_1", "amplification_2", "evaluation",
       "categorization"] ∧
    (∀ t ∈ ideationTasks, ∀ c ∈ t.context,
      stageNames.indexOf c < stageNames.indexOf t.name) ∧
    (∀ so ∈ runSequential exec,
      so.context = (declaredContext so.name).map (outputIn (runSequential exec))) := by
  refine ⟨rfl, rfl, rfl, rfl, rfl, rfl, by decide, ?_⟩
  exact List.map_eq_map_iff.mp rfl

/-- Witness for C4: instantiation at the constant executor. -/
theorem claim4_witness :
    (runSequential fun _ _ => "out").map StageOutput.name =
      ["generation", "amplification_1", "amplification_2", "evaluation",
       "categorization", "synthesis"] :=
  (claim4_pipeline_order_and_context fun _ _ => "out").1

/-- Counterexample for C5: the JSON document written for a completed run has
top-level keys `timestamp`, `generated_at` and `outputs` only; the stage
texts live one level down under `outputs`, and no model identifier appears
anywhere in the document — neither a `"model"` key nor the configured model
string. -/
theorem claim5_counterexample :
    docKeys (jsonData sampleResult "20240101_120000" "2024-01-01T12:00:00") =
      ["timestamp", "generated_at", "outputs", "generation_output",
       "amplification_1_output", "amplification_2_output", "evaluation_output",
       "categorization_output", "synthesis_output", "final_result"] ∧
    "model" ∉ docKeys (jsonData sampleResult "20240101_120000" "2024-01-01T12:00:00") ∧
    DEFAULT_MODEL ∉ docStrings (jsonData sampleResult "20240101_120000" "2024-01-01T12:00:00") := by
  decide

/-- Amended C5: the JSON document is a mapping with exactly the keys
`timestamp`, `generated_at` and `outputs`; `outputs` holds one key per
pipeline stage bound to that stage's raw output text, plus the stringified
`final_result`.  No model identifier is written. -/
theorem claim5_amended (r : IdeationResult) (ts ga : String) :
    (jsonData r ts ga).map Prod.fst = ["timestamp", "generated_at", "outputs"] ∧
    alist.get? (jsonData r ts ga) "timestamp" = some (.jstr ts) ∧
    alist.get? (jsonData r ts ga) "outputs" = some (.jmap r.to_dict) ∧
    r.to_dict.map Prod.fst =
      ["generation_output", "amplification_1_output", "amplification_2_output",
       "evaluation_output", "categorization_output", "synthesis_output",
       "final_result"] ∧
    alist.get? r.to_dict "generation_output" = some r.generation_output ∧
    alist.get? r.to_dict "amplification_1_output" = some r.amplification_1_output ∧
    alist.get? r.to_dict "amplification_2_output" = some r.amplification_2_output ∧
    alist.get? r.to_dict "evaluation_output" = some r.evaluation_output ∧
    alist.get? r.to_dict "categorization_output" = some r.categorization_output ∧
    alist.get? r.to_dict "synthesis_output" = some r.synthesis_output ∧
    alist.get? r.to_dict "final_result" = some (pyStr r.final_result) ∧
    "model" ∉ (jsonData r ts ga).map Prod.fst := by
  refine ⟨rfl, rfl, rfl, rfl, rfl, rfl, rfl, rfl, rfl, rfl, rfl, ?_⟩
  show "model" ∉ ["timestamp", "generated_at", "outputs"]
  decide

/-- Witness for C5 (amended): instantiation at the sample run. -/
theorem claim5_witness :
    alist.get? (jsonData sampleResult "t" "d") "outputs" =
      some (.jmap sampleResult.to_dict) :=
  (claim5_amended sampleResult "t" "d").2.2.1

/-- Counterexample for C6: two distinct fully populated results — one whose
`final_result` is the integer `1`, one whose `final_result` is the string
`"1"` — serialize to identical documents, because `to_dict` stores
`str(final_result)`.  No deserializer whatsoever can recover both, so the
round-trip cannot be lossless on `final_result`. -/
theorem claim6_counterexample :
    IdeationResult.to_dict resultIntFinal = IdeationResult.to_dict resultStrFinal ∧
    jsonData resultIntFinal "t" "d" = jsonData resultStrFinal "t" "d" ∧
    resultIntFinal ≠ resultStrFinal := by
  decide

/-- Amended C6: parsing the serialized document recovers every stage output
exactly, and recovers `final_result` only up to string conversion: the
round-trip returns the result with `final_result` replaced by
`str(final_result)`. -/
theorem claim6_amended (r : IdeationResult) (ts ga : String) :
    specParse (jsonData r ts ga) =
      some { r with final_result := .pstr (pyStr r.final_result) } := by
  cases r
  rfl

/-- Witness for C6 (amended): instantiation at the sample run. -/
theorem claim6_witness :
    specParse (jsonData sampleResult "t" "d") =
      some { sampleResult with final_result := .pstr (pyStr sampleResult.final_result) } :=
  claim6_amended sampleResult "t" "d"

/-- Counterexample for C7: the conversion command terminates with exit code 0
both when the input file does not exist (the `FileNotFoundError` is caught
and printed at lines 196–200) and when the batch directory holds no markdown
files (the branch at lines 175–177 just returns), contradicting the claimed
non-zero exit code. -/
theorem claim7_counterexample :
    (convertCliMain ⟨"missing.md", none, false⟩
        ⟨fun _ => false, fun _ => false, fun _ => []⟩).1 = 0 ∧
    (convertCliMain ⟨"reports", none, true⟩
        ⟨fun _ => true, fun _ => false, fun _ => []⟩).1 = 0 :=
  ⟨rfl, rfl⟩

/-- Amended C7: the conversion command always terminates with exit code 0; on
a missing single input file it prints the caught file-not-found error, and in
batch mode on a directory without markdown files it prints the no-files
message. -/
theorem claim7_amended (args : ConvArgs) (fs : ConvFS) :
    (convertCliMain args fs).1 = 0 ∧
    (args.batch = false → fs.fileExists args.input = false →
      "Error: Markdown file not found: " ++ args.input ∈ (convertCliMain args fs).2) ∧
    (args.batch = true → fs.isDir args.input = true →
      fs.mdFiles args.input = [] →
      "No markdown files found in " ++ args.input ∈ (convertCliMain args fs).2) := by
  refine ⟨?_, ?_, ?_⟩
  · unfold convertCliMain
    split
    · split
      · rfl
      · split <;> rfl
    · split <;> rfl
  · intro hb hf
    simp [convertCliMain, hb, hf]
  · intro hb hd hm
    simp [convertCliMain, hb, hd, hm]

/-- Witness for C7 (amended): a missing single input file yields exit code 0
with the error message printed. -/
theorem claim7_witness :
    (convertCliMain ⟨"in.md", none, false⟩
        ⟨fun _ => false, fun _ => false, fun _ => []⟩).1 = 0 ∧
    "Error: Markdown file not found: in.md" ∈
      (convertCliMain ⟨"in.md", none, false⟩
        ⟨fun _ => false, fun _ => false, fun _ => []⟩).2 :=
  ⟨(claim7_amended ⟨"in.md", none, false⟩ ⟨fun _ => false, fun _ => false, fun _ => []⟩).1,
   (claim7_amended ⟨"in.md", none, false⟩ ⟨fun _ => false, fun _ => false, fun _ => []⟩).2.1 rfl rfl⟩

/-- Claim C8: when the API-key environment variable is unset, the pipeline
entry point exits with status 1 without invoking the ideation session (no
external generation calls). -/
theorem claim8_missing_key_exits (env : String → Option String)
    (sessionOk : Bool) (h : env "OPENROUTER_API_KEY" = none) :
    pipelineMain env sessionOk = (1, false) := by
  simp [pipelineMain, envTruthy, h]

/-- Witness for C8: instantiation at the empty environment. -/
theorem claim8_witness :
    pipelineMain (fun _ => none) true = (1, false) :=
  claim8_missing_key_exits (fun _ => none) true rfl

/-- Counterexample for C9: the score table never computes a mean — the
Overall row shows the supplied `overall_score` member formatted to one
decimal, and `"N/A"` when that member is absent.  With the four claimed
scores and no `overall_score`, the row is `"N/A"`; with the four claimed
scores and a supplied `overall_score` of 9.9 the row is `"9.9/10"`; neither
is the claimed mean `"7.5/10"`. -/
theorem claim9_counterexample :
    scoresTableRows fourScores =
      [["Creativity", "8/10"], ["Feasibility", "6/10"], ["Uniqueness", "9/10"],
       ["Impact", "7/10"], ["Overall", "N/A"]] ∧
    scoresTableRows (fourScores ++ [("overall_score", .pfloat ninePointNine)]) =
      [["Creativity", "8/10"], ["Feasibility", "6/10"], ["Uniqueness", "9/10"],
       ["Impact", "7/10"], ["Overall", "9.9/10"]] ∧
    ninePointNine = 99 / 10 ∧
    ¬ ("N/A" : String) = "7.5/10" ∧ ¬ ("9.9/10" : String) = "7.5/10" := by
  refine ⟨by decide, by decide, ?_, by decide, by decide⟩
  rw [show ninePointNine = (⟨99, 10, by decide, by norm_num⟩ : ℚ) from rfl,
      Rat.mk'_eq_divInt, Rat.divInt_eq_div]
  norm_num

/-- Amended C9: when the evaluation supplies `overall_score = 7.5` together
with the four criterion scores 8, 6, 9, 7, the Overall row renders
`"7.5/10"`; 7.5 equals the mean of the four scores, but it is the supplied
member, not a computed mean, that is rendered. -/
theorem claim9_amended :
    scoresTableRows (fourScores ++ [("overall_score", .pfloat sevenPointFive)]) =
      [["Creativity", "8/10"], ["Feasibility", "6/10"], ["Uniqueness", "9/10"],
       ["Impact", "7/10"], ["Overall", "7.5/10"]] ∧
    sevenPointFive = (8 + 6 + 9 + 7) / 4 := by
  refine ⟨by decide, ?_⟩
  rw [show sevenPointFive = (⟨15, 2, by decide, by norm_num⟩ : ℚ) from rfl,
      Rat.mk'_eq_divInt, Rat.divInt_eq_div]
  norm_num


/-- Membership in the stable descending insertion. -/
theorem mem_insertByKeyDesc {x z : PIdea} {l : List PIdea} :
    z ∈ insertByKeyDesc x l ↔ z = x ∨ z ∈ l := by
  induction l with
  | nil => simp [insertByKeyDesc]
  | cons y ys ih =>
    simp only [insertByKeyDesc]
    split
    · simp [List.mem_cons]
    · simp [List.mem_cons, ih]
      tauto

/-- Insertion preserves the non-increasing-key invariant. -/
theorem sorted_insertByKeyDesc {x : PIdea} {l : List PIdea}
    (h : l.Pairwise fun a b => overallKey b ≤ overallKey a) :
    (insertByKeyDesc x l).Pairwise fun a b => overallKey b ≤ overallKey a := by
  induction l with
  | nil => simp [insertByKeyDesc]
  | cons y ys ih =>
    rw [List.pairwise_cons] at h
    obtain ⟨hy, hys⟩ := h
    simp only [insertByKeyDesc]
    split
    · rename_i hxy
      refine List.Pairwise.cons ?_ (List.Pairwise.cons hy hys)
      intro z hz
      rcases List.mem_cons.mp hz with rfl | hz'
      · exact hxy
      · exact le_trans (hy z hz') hxy
    · rename_i hxy
      refine List.Pairwise.cons ?_ (ih hys)
      intro z hz
      rcases mem_insertByKeyDesc.mp hz with rfl | hz'
      · exact le_of_lt (lt_of_not_le hxy)
      · exact hy z hz'

/-- The stable descending sort produces a list whose keys never increase. -/
theorem sorted_sortByKeyDesc (l : List PIdea) :
    (sortByKeyDesc l).Pairwise fun a b => overallKey b ≤ overallKey a := by
  induction l with
  | nil => simp [sortByKeyDesc]
  | cons x xs ih => exact sorted_insertByKeyDesc ih

/-- An idea without a scores mapping has sort key 0. -/
theorem overallKey_eq_zero {p : PIdea} (h : p.scores = none) : overallKey p = 0 := by
  unfold overallKey
  rw [h]

/-- With evaluations present and `top_ideas_only` off, the rendered order is
the stable descending sort of the merged ideas, hence key-non-increasing. -/
theorem sorted_generate_ideas_pdf_order (ideas : List PIdea)
    (evals : List (List (String × PyNum))) (numTop : Nat)
    (hempty : evals.isEmpty = false) :
    (generate_ideas_pdf_order ideas evals false numTop).Pairwise
      (fun a b => overallKey b ≤ overallKey a) := by
  simp only [generate_ideas_pdf_order, hempty]
  simp only [Bool.false_eq_true, not_false_eq_true, and_self, if_true, if_false,
    reduceIte]
  exact sorted_sortByKeyDesc _

/-- Counterexample for C10: idea 1 has no matching evaluation entry, yet it
is not sorted with a default score of 0 — it carries its own scores mapping
with overall score 5, so it is rendered at position 0, before idea 2 whose
merged evaluation gives the positive overall score 3. -/
theorem claim10_counterexample :
    generate_ideas_pdf_order twoIdeas oneEval false 15 =
      [⟨some 1, some [("overall_score", .pint 5)], "A"⟩,
       ⟨some 2, some [("idea_id", .pint 2), ("overall_score", .pint 3)], "B"⟩] ∧
    lookupEval oneEval 1 = none ∧
    ¬ overallKey ⟨some 1, some [("overall_score", .pint 5)], "A"⟩ = 0 ∧
    0 < overallKey ⟨some 2, some [("idea_id", .pint 2), ("overall_score", .pint 3)], "B"⟩ := by
  decide

/-- Amended C10: with a non-empty evaluations list, every rendered idea that
has no matching evaluation entry and carries no scores mapping of its own
appears after every rendered idea whose overall sort key is positive. -/
theorem claim10_amended (ideas : List PIdea)
    (evals : List (List (String × PyNum))) (numTop : Nat) (i j : Nat)
    (hev : ¬evals = [])
    (hi : i < (generate_ideas_pdf_order ideas evals false numTop).length)
    (hj : j < (generate_ideas_pdf_order ideas evals false numTop).length)
    (huneval : ∀ v,
      ((generate_ideas_pdf_order ideas evals false numTop).get ⟨i, hi⟩).id = some v →
      lookupEval evals v = none)
    (hnoscores :
      ((generate_ideas_pdf_order ideas evals false numTop).get ⟨i, hi⟩).scores = none)
    (hpos :
      0 < overallKey ((generate_ideas_pdf_order ideas evals false numTop).get ⟨j, hj⟩)) :
    j < i := by
  have hempty : evals.isEmpty = false := by
    cases evals with
    | nil => exact absurd rfl hev
    | cons e es => rfl
  have hkey0 := overallKey_eq_zero hnoscores
  have hsorted := sorted_generate_ideas_pdf_order ideas evals numTop hempty
  by_contra hcon
  push_neg at hcon
  rcases lt_or_eq_of_le hcon with hij | hij
  · have hle := (List.pairwise_iff_get.mp hsorted) ⟨i, hi⟩ ⟨j, hj⟩ hij
    rw [hkey0] at hle
    exact absurd hpos (not_lt.mpr hle)
  · have hfin : (⟨i, hi⟩ : Fin (generate_ideas_pdf_order ideas evals false numTop).length) =
        ⟨j, hj⟩ := Fin.ext hij
    rw [hfin] at hkey0
    rw [hkey0] at hpos
    exact lt_irrefl 0 hpos

/-- Witness for C10 (amended): with one evaluation matching idea 1 (overall
score 4) and idea 2 unevaluated and scoreless, idea 2 is rendered at
position 1, after idea 1 at position 0. -/
theorem claim10_witness :
    (generate_ideas_pdf_order plainIdeas evalForOne false 15).length = 2 ∧
    (0 : Nat) < 1 := by
  refine ⟨by decide, ?_⟩
  refine claim10_amended plainIdeas evalForOne 15 1 0 (by decide) (by decide)
    (by decide) ?_ (by decide) (by decide)
  intro v hv
  have h2 : ((generate_ideas_pdf_order plainIdeas evalForOne false 15).get
      ⟨1, by decide⟩).id = some 2 := by decide
  have h3 := h2.symm.trans hv
  injection h3 with h4
  subst h4
  decide

end Ideator
